import Mathlib

/-!
Verification development for the CRUS / soil-erosion raster scripts.

The repository holds four GPU raster scripts.  Each one flattens several
co-registered rasters into 1-D arrays, runs a per-pixel CUDA kernel over
them (every thread touches only its own index `pos`), and writes the
result arrays back as rasters.  Because each thread reads and writes only
position `pos`, every kernel is embedded here as a function from the
tuple of per-position cells to the tuple of per-position cells after the
kernel body has run; numeric cells are modelled as exact rationals.

Embedded pieces, named after the source:
* `scanRewrite`   - the slope-reclass loop of the two CRUS kernels
  (`formuleSensibiliteRuissellement_battance.py`, `my_kernel`), which
  compares and overwrites `dataPentes[pos]` in place;
* `scanAssign`    - the coefficient-lookup loop of the erosion kernels
  (`calcul_perte_sol.py`, `my_kernel`), which assigns `C[pos]` on every
  match without breaking;
* `battLoop`      - the battance-lookup loop of the four-variant CRUS
  kernel (script 15), which assigns the two blended scores on a match;
* `quantize`      - the threshold cascade shared by the CRUS kernels;
* `selectK`       - the clay/sand band selection of the erosion kernels;
* `kernel11`, `kernel15`, `kernel17`, `kernel08` - the four kernels;
* `arraySplit`, `chunkSplit` - the `np.array_split` chunking used by the
  scripts 15 and 17 when `dim1*dim2 > dimmax`;
* `interBox`, `warpPlan15`  - the module-level grid alignment of
  script 15 (intersection box and the unconditional resampling fan-out);
* `condNonDecoupage`, `warpPlan17` - script 17's alignment: the
  already-aligned fast path that skips resampling, and the realignment
  branch that fails while building the thread arguments (the line-243
  missing comma) before any warp is issued.
-/

/-- One step of a correspondence lookup that assigns the target on every
match (`if key == tab[i,0]: target = tab[i,1]`, no break): the final
value after scanning the whole table, starting from `init`.  Used for
the land-cover to coefficient-C lookup of the erosion kernels. -/
def scanAssign (key : ℚ) (tab : List (ℚ × ℚ)) (init : ℚ) : ℚ :=
  tab.foldl (fun acc kv => if key = kv.1 then kv.2 else acc) init

/-- The slope-reclass loop of the CRUS kernels: the compared cell is
itself overwritten on a match (`if dataPentes[pos] == tab[i,0]:
dataPentes[pos] = tab[i,1]`), so later entries are compared against the
already-rewritten value. -/
def scanRewrite (tab : List (ℚ × ℚ)) (p : ℚ) : ℚ :=
  tab.foldl (fun cur kv => if cur = kv.1 then kv.2 else cur) p

/-- The battance lookup of the four-variant CRUS kernel (script 15): on a
match both blended scores are assigned from the multiplier, otherwise
the accumulated pair is kept (initially the pre-filled copies of the
land-cover array). -/
def battLoop (tab : List (ℚ × ℚ)) (batt baseP baseSP : ℚ) (init : ℚ × ℚ) : ℚ × ℚ :=
  tab.foldl (fun acc kv => if batt = kv.1 then (kv.2 * baseP / 100, kv.2 * baseSP / 100) else acc) init

/-- The battance lookup of the two-variant CRUS kernel (script 11):
only the with-battance score is assigned on a match. -/
def battLoop11 (tab : List (ℚ × ℚ)) (batt base : ℚ) (init : ℚ) : ℚ :=
  tab.foldl (fun acc kv => if batt = kv.1 then kv.2 * base / 100 else acc) init

/-- The weighted blend with slope influence of script 15:
`0.4 * pentes + 0.35 * permea + 0.25 * occSol`. -/
def blendP (p pe o : ℚ) : ℚ := 0.4 * p + 0.35 * pe + 0.25 * o

/-- The weighted blend without slope influence (scripts 11 and 15):
`0 * pentes + 0.6 * permea + 0.4 * occSol`. -/
def blendSP (p pe o : ℚ) : ℚ := 0 * p + 0.6 * pe + 0.4 * o

/-- The threshold cascade of the CRUS kernels that turns a blended score
into a risk class: `< 0` gives the sentinel `-1`, `<= 32` gives `0`,
`<= 42` gives `1`, `<= 55` gives `2`, otherwise `3`. -/
def quantize (s : ℚ) : ℚ :=
  if s < 0 then -1
  else if s ≤ 32 then 0
  else if s ≤ 42 then 1
  else if s ≤ 55 then 2
  else 3

/-- The packed difference code of the four-variant CRUS kernel: starts at
`20000` and adds `1000`, `100`, `10`, `1` for the four pairwise
equalities between the quantized variant outputs. -/
def diffCode (qr qsb qrsp qsbsp : ℚ) : ℚ :=
  20000 + (if qr = qsb then 1000 else 0) + (if qrsp = qsbsp then 100 else 0)
    + (if qr = qrsp then 10 else 0) + (if qsb = qsbsp then 1 else 0)

/-- The clay/sand band selection of the erosion kernels (`elif` chain);
a pair matching no band keeps the previous value `kPrev` of the `K`
cell. -/
def selectK (argile sable kPrev : ℚ) : ℚ :=
  if argile < 18 ∧ 65 < sable then 0.0115
  else if 18 < argile ∧ argile < 35 ∧ 65 < sable then 0.0311
  else if argile < 35 ∧ sable < 15 then 0.0438
  else if 35 < argile ∧ argile < 60 then 0.0339
  else if 60 < argile then 0.0170
  else kPrev

/-- Per-position cells of the arrays touched by the two-variant CRUS
kernel of script 11 (`dataPentes`, `dataPermea`, `dataOccSol`,
`dataBattance`, `dataResult`, `data_Ssbatt`, `dataDiff`). -/
structure Cell11 where
  pentes : ℚ
  permea : ℚ
  occSol : ℚ
  battance : ℚ
  result : ℚ
  ssbatt : ℚ
  diff : ℚ
deriving DecidableEq

/-- The two-variant CRUS kernel of script 11 at one position: reclass
the slope cell in place, battance lookup into the result cell
(pre-filled with the land-cover value), blend without slope, quantize
both scores, boolean diff. -/
def kernel11 (tabCorCod tabCoefBat : List (ℚ × ℚ)) (c : Cell11) : Cell11 :=
  let p := scanRewrite tabCorCod c.pentes
  let r := battLoop11 tabCoefBat c.battance (blendSP p c.permea c.occSol) c.result
  let sb := blendSP p c.permea c.occSol
  let qr := quantize r
  let qsb := quantize sb
  { pentes := p, permea := c.permea, occSol := c.occSol, battance := c.battance,
    result := qr, ssbatt := qsb, diff := if qsb = qr then 1 else -1 }

/-- Per-position cells of the arrays touched by the four-variant CRUS
kernel of script 15 (`dataPentes`, `dataPermea`, `dataOccSol`,
`dataBattance`, `dataResult`, `data_Ssbatt`, `dataDiff`,
`dataResult_sp`, `data_Ssbatt_sp`). -/
structure Cell15 where
  pentes : ℚ
  permea : ℚ
  occSol : ℚ
  battance : ℚ
  result : ℚ
  ssbatt : ℚ
  diff : ℚ
  result_sp : ℚ
  ssbatt_sp : ℚ
deriving DecidableEq

/-- The four-variant CRUS kernel of script 15 at one position: reclass
the slope cell in place, battance lookup into the two with-battance
scores, blends with and without slope, quantize all four scores, packed
difference code. -/
def kernel15 (tabCorCod tabCoefBat : List (ℚ × ℚ)) (c : Cell15) : Cell15 :=
  let p := scanRewrite tabCorCod c.pentes
  let rr := battLoop tabCoefBat c.battance
    (blendP p c.permea c.occSol) (blendSP p c.permea c.occSol) (c.result, c.result_sp)
  let sb := blendP p c.permea c.occSol
  let sbsp := blendSP p c.permea c.occSol
  let qr := quantize rr.1
  let qrsp := quantize rr.2
  let qsb := quantize sb
  let qsbsp := quantize sbsp
  { pentes := p, permea := c.permea, occSol := c.occSol, battance := c.battance,
    result := qr, ssbatt := qsb, diff := diffCode qr qsb qrsp qsbsp,
    result_sp := qrsp, ssbatt_sp := qsbsp }

/-- Per-position cells of the arrays touched by the erosion kernel of
script 17 (`R`, `K`, `tx_argile`, `tx_limon`, `tx_sable`, `pente`, `LS`,
`C`, `occ_sol`, `result_A`, `result_kg_px`, `result_epaisseur`).  `K`,
`LS` and `C` start as uninitialized device memory, so their incoming
values are arbitrary cell fields. -/
structure Cell17 where
  R : ℚ
  K : ℚ
  argile : ℚ
  limon : ℚ
  sable : ℚ
  pente : ℚ
  LS : ℚ
  C : ℚ
  occSol : ℚ
  result_A : ℚ
  result_kg : ℚ
  result_ep : ℚ
deriving DecidableEq

/-- The erosion kernel of script 17 at one position: C lookup (assign on
every match), polynomial LS factor, K band selection, products and the
kg-per-pixel conversion, the thickness cell written from the slope cell,
then the no-data override forcing `LS`, `pente` and the three result
cells to `-1` when the slope cell equals the declared no-data value. -/
def kernel17 (tab : List (ℚ × ℚ)) (ndv : ℚ) (c : Cell17) : Cell17 :=
  let Cv := scanAssign c.occSol tab c.C
  let LSv := (0.065 + 0.0456 * c.pente + 0.006541 * c.pente * c.pente) * 1.063589
  let Kv := selectK c.argile c.sable c.K
  let A := c.R * Kv * Cv * LSv
  let kg := A * 0.0025 * 1000
  let ep := c.pente
  if c.pente = ndv then
    { c with
      C := Cv, K := Kv, LS := -1, pente := -1,
      result_A := -1, result_kg := -1, result_ep := -1 }
  else
    { c with
      C := Cv, K := Kv, LS := LSv,
      result_A := A, result_kg := kg, result_ep := ep }

/-- Per-position cells of the arrays touched by the erosion kernel of
script 08 (`R`, `K`, `tx_argile`, `tx_limon`, `tx_sable`, `pente`, `L`,
`S`, `C`, `occ_sol`, `result_A`, `result_kg_px`, `result_epaisseur`). -/
structure Cell08 where
  R : ℚ
  K : ℚ
  argile : ℚ
  limon : ℚ
  sable : ℚ
  pente : ℚ
  L : ℚ
  S : ℚ
  C : ℚ
  occSol : ℚ
  result_A : ℚ
  result_kg : ℚ
  result_ep : ℚ
deriving DecidableEq

/-- The erosion kernel of script 08 at one position.  The kernel calls
the device intrinsics `math.pow` and `math.sin`; these are outside the
repository, so they enter the embedding as the function parameters
`powq` and `sinq`.  No no-data handling exists in this kernel. -/
def kernel08 (tab : List (ℚ × ℚ)) (sinq : ℚ → ℚ) (powq : ℚ → ℚ → ℚ) (c : Cell08) : Cell08 :=
  let Cv := scanAssign c.occSol tab c.C
  let Lv := 1.4 * powq (5 / 22.13) 0.4
  let Sv := powq (sinq c.pente / 0.0896) 1.3
  let Kv := selectK c.argile c.sable c.K
  let A := c.R * Kv * Cv * Lv * Sv
  let kg := A * 0.0025 * 1000
  let ep := (kg / 1250) / 25
  { c with
    C := Cv, K := Kv, L := Lv, S := Sv,
    result_A := A, result_kg := kg, result_ep := ep }

/-- `np.array_split xs n`: `n` contiguous pieces; the first piece takes
the ceiling share of the remaining length, matching numpy, which hands
the first `len % n` pieces one extra element. -/
def arraySplit : ℕ → List α → List (List α)
  | 0, _ => []
  | n + 1, xs =>
    let s := (xs.length + n) / (n + 1)
    xs.take s :: arraySplit n (xs.drop s)

/-- The chunk threshold `dimmax` hardcoded in scripts 15 and 17. -/
def dimmax : ℕ := 10000000

/-- The chunking of scripts 15 and 17: a single chunk when the total
pixel count is at most the threshold, otherwise `np.array_split` into
`dimtot // dimmax` pieces (floor division, as in the source). -/
def chunkSplit (M : ℕ) (xs : List α) : List (List α) :=
  if xs.length ≤ M then [xs] else arraySplit (xs.length / M) xs

/-- One chunk of the four-variant CRUS evaluation: the kernel applied at
every position of the chunk. -/
def evalChunk15 (tabCorCod tabCoefBat : List (ℚ × ℚ)) (chunk : List Cell15) : List Cell15 :=
  chunk.map (kernel15 tabCorCod tabCoefBat)

/-- The chunked evaluation path of script 15: split, evaluate every
chunk with the same kernel, concatenate in chunk order. -/
def chunkedEval15 (tabCorCod tabCoefBat : List (ℚ × ℚ)) (M : ℕ) (xs : List Cell15) : List Cell15 :=
  ((chunkSplit M xs).map (evalChunk15 tabCorCod tabCoefBat)).flatten

/-- One chunk of the script-17 erosion evaluation. -/
def evalChunk17 (tab : List (ℚ × ℚ)) (ndv : ℚ) (chunk : List Cell17) : List Cell17 :=
  chunk.map (kernel17 tab ndv)

/-- The chunked evaluation path of script 17 (`lance_calcul` per chunk,
then `np.concatenate`). -/
def chunkedEval17 (tab : List (ℚ × ℚ)) (ndv : ℚ) (M : ℕ) (xs : List Cell17) : List Cell17 :=
  ((chunkSplit M xs).map (evalChunk17 tab ndv)).flatten

/-- The extent and resolution data `lire_raster` extracts from one input
raster. -/
structure Extent where
  xmin : ℚ
  ymin : ℚ
  xmax : ℚ
  ymax : ℚ
  resX : ℚ
  resY : ℚ
deriving DecidableEq

/-- The common box and resolution computed at module level in script 15:
`xmin = max(xmin_i)`, `ymin = max(ymin_i)`, `xmax = min(xmax_i)`,
`ymax = min(ymax_i)`, `resX = max(resX_i)`, `resY = max(resY_i)` over
the nonempty raster set `e :: es`. -/
def interBox (e : Extent) (es : List Extent) : Extent :=
  { xmin := es.foldl (fun a x => max a x.xmin) e.xmin,
    ymin := es.foldl (fun a x => max a x.ymin) e.ymin,
    xmax := es.foldl (fun a x => min a x.xmax) e.xmax,
    ymax := es.foldl (fun a x => min a x.ymax) e.ymax,
    resX := es.foldl (fun a x => max a x.resX) e.resX,
    resY := es.foldl (fun a x => max a x.resY) e.resY }

/-- The resampling fan-out of script 15: one `gdal.Warp` call per input
raster, every call receiving the common box, issued unconditionally
(the script contains no degeneracy check and no error path of its own).
Each issued warp is recorded by the bounds it receives. -/
def warpPlan15 (e : Extent) (es : List Extent) : List Extent :=
  (e :: es).map (fun _ => interBox e es)

/-- The `condition_non_decoupage` test of script 17: the computed box
coordinates (max of mins, min of maxs) are compared against the min of
mins, max of maxs, and the resolutions against their own maxima (the
two resolution comparisons are trivially true, exactly as in the
source); the test holds precisely when every raster already shares the
common box, in which case resampling is skipped. -/
def condNonDecoupage (e : Extent) (es : List Extent) : Bool :=
  decide ((interBox e es).xmin = es.foldl (fun a x => min a x.xmin) e.xmin)
    && decide ((interBox e es).ymin = es.foldl (fun a x => min a x.ymin) e.ymin)
    && decide ((interBox e es).xmax = es.foldl (fun a x => max a x.xmax) e.xmax)
    && decide ((interBox e es).ymax = es.foldl (fun a x => max a x.ymax) e.ymax)
    && decide ((interBox e es).resX = es.foldl (fun a x => max a x.resX) e.resX)
    && decide ((interBox e es).resY = es.foldl (fun a x => max a x.resY) e.resY)

/-- The resampling phase of script 17: when `condition_non_decoupage`
holds the realignment block is skipped and no resampling is issued
(`some []`); otherwise the script evaluates the thread-argument tuples
and the third one raises a `TypeError` (a missing comma makes
`"fichier_raster_tx_limon.tif" [xmin, ymin, xmax, ymax]` subscript a
string with the bounds list) before any warp thread is started, so no
resampling call is ever issued on that path either (`none` models the
crash during argument building). -/
def warpPlan17 (e : Extent) (es : List Extent) : Option (List Extent) :=
  if condNonDecoupage e es then some [] else none

/-- Sample script-08 cell whose slope holds a declared no-data sentinel
`-9999` and whose rainfall-erosivity input is `0`, so every product in
the kernel's output lines vanishes for any coefficient table and any
behaviour of the external intrinsics. -/
def sentinelSlopeCell08 : Cell08 :=
  { R := 0, K := 0, argile := 40, limon := 10, sable := 30, pente := -9999, L := 0, S := 0,
    C := 0, occSol := 7, result_A := 0, result_kg := 0, result_ep := 0 }

/-- Sample correspondence table with a duplicated key, used to probe the
lookup loops on duplicate keys. -/
def dupTable : List (ℚ × ℚ) := [(7, 2), (7, 9)]

/-- Sample script-17 cell looking up land-cover code `7` (matching both
entries of `dupTable`) on a valid (non no-data) slope. -/
def dupKeyCell : Cell17 :=
  { R := 1, K := 0, argile := 40, limon := 0, sable := 30, pente := 1, LS := 0, C := 0,
    occSol := 7, result_A := 0, result_kg := 0, result_ep := 0 }

/-- Sample script-17 cell whose slope equals the declared no-data value
`-9999` while every other input would take a valid branch. -/
def noDataCell : Cell17 :=
  { R := 5, K := 0, argile := 20, limon := 10, sable := 70, pente := -9999, LS := 0, C := 0,
    occSol := 7, result_A := 0, result_kg := 0, result_ep := 0 }

/-- Sample single-entry coefficient table mapping land-cover code `1` to
`1/2`. -/
def oneTable : List (ℚ × ℚ) := [(1, 1/2)]

/-- Sample script-17 cell on a valid slope of `2` degrees, land-cover
code `1`, and a clay rate falling in the fourth K band. -/
def validCell : Cell17 :=
  { R := 100, K := 0, argile := 40, limon := 0, sable := 30, pente := 2, LS := 0, C := 0,
    occSol := 1, result_A := 0, result_kg := 0, result_ep := 0 }

/-- Sample slope-reclass table mapping raw slope class `1` to reclass
value `5`. -/
def reclassTable : List (ℚ × ℚ) := [(1, 5)]

/-- Sample script-15 cell whose slope cell holds raw class `1`. -/
def slopeCell : Cell15 :=
  { pentes := 1, permea := 0, occSol := 0, battance := 0, result := 0, ssbatt := 0,
    diff := 0, result_sp := 0, ssbatt_sp := 0 }

/-- Sample script-15 cell with distinct values in every field. -/
def wCell15 : Cell15 :=
  { pentes := 1, permea := 2, occSol := 3, battance := 4, result := 5, ssbatt := 6,
    diff := 7, result_sp := 8, ssbatt_sp := 9 }

/-- Sample script-17 cell with distinct values in every field. -/
def wCell17 : Cell17 :=
  { R := 1, K := 2, argile := 3, limon := 4, sable := 5, pente := 6, LS := 7, C := 8,
    occSol := 9, result_A := 10, result_kg := 11, result_ep := 12 }

/-- Sample extent of a unit square at the origin. -/
def extentA : Extent := { xmin := 0, ymin := 0, xmax := 1, ymax := 1, resX := 1, resY := 1 }

/-- Sample extent of a unit square disjoint from `extentA`, so the two
have an empty intersection. -/
def extentB : Extent := { xmin := 2, ymin := 2, xmax := 3, ymax := 3, resX := 1, resY := 1 }

/-!
Helper lemmas shared by the claim theorems.
-/

theorem arraySplit_length {α : Type} : ∀ (n : ℕ) (xs : List α), (arraySplit n xs).length = n := by
  intro n
  induction n with
  | zero => intro xs; rfl
  | succ n ih => intro xs; simp only [arraySplit, List.length_cons, ih]

theorem arraySplit_flatten {α : Type} :
    ∀ (n : ℕ) (xs : List α), (arraySplit (n + 1) xs).flatten = xs := by
  intro n
  induction n with
  | zero =>
      intro xs
      simp [arraySplit]
  | succ n ih =>
      intro xs
      rw [arraySplit, List.flatten_cons, ih]
      exact List.take_append_drop _ xs

theorem arraySplit_chunk_length_le {α : Type} :
    ∀ (n : ℕ) (xs : List α) (c : List α), c ∈ arraySplit (n + 1) xs →
      c.length ≤ (xs.length + n) / (n + 1) := by
  intro n
  induction n with
  | zero =>
      intro xs c hc
      simp [arraySplit] at hc
      subst hc
      simp
  | succ n ih =>
      intro xs c hc
      rw [arraySplit] at hc
      rcases List.mem_cons.mp hc with hc | hc
      · subst hc
        simp only [List.length_take]
        omega
      · have hrec := ih _ c hc
        rw [List.length_drop] at hrec
        set L := xs.length with hL
        set s := (L + (n + 1)) / (n + 1 + 1) with hs
        have hdm := Nat.div_add_mod (L + (n + 1)) (n + 1 + 1)
        have hmlt : (L + (n + 1)) % (n + 1 + 1) < n + 1 + 1 := Nat.mod_lt _ (by omega)
        rw [← hs] at hdm
        have hkey : L ≤ (n + 1 + 1) * s := by linarith
        have hsum : (n + 1 + 1) * s = (n + 1) * s + s := by ring
        have hsub : L - s ≤ (n + 1) * s := Nat.sub_le_iff_le_add.mpr (by linarith)
        have hlt : L - s + n < (s + 1) * (n + 1) := by
          have hexp : (s + 1) * (n + 1) = (n + 1) * s + n + 1 := by ring
          linarith
        have hdiv : (L - s + n) / (n + 1) < s + 1 := (Nat.div_lt_iff_lt_mul (by omega)).mpr hlt
        exact le_trans hrec (Nat.lt_succ_iff.mp hdiv)

theorem chunkSplit_flatten {α : Type} (M : ℕ) (xs : List α) (hM : 1 ≤ M) :
    (chunkSplit M xs).flatten = xs := by
  unfold chunkSplit
  split
  · simp
  · rename_i h
    have h1 : 1 ≤ xs.length / M := (Nat.one_le_div_iff hM).mpr (by omega)
    obtain ⟨n, hn⟩ : ∃ n, xs.length / M = n + 1 := ⟨xs.length / M - 1, by omega⟩
    rw [hn]
    exact arraySplit_flatten n xs

theorem assignScan_getLastD {β : Type} (key : ℚ) (g : ℚ × ℚ → β) :
    ∀ (tab : List (ℚ × ℚ)) (init : β),
      tab.foldl (fun acc kv => if key = kv.1 then g kv else acc) init
        = ((tab.filter fun e => decide (key = e.1)).map g).getLastD init := by
  intro tab
  induction tab with
  | nil => intro init; rfl
  | cons kv t ih =>
      intro init
      by_cases h : key = kv.1
      · rw [List.foldl_cons, List.filter_cons]
        simp only [decide_eq_true_eq]
        rw [if_pos h, if_pos h, List.map_cons, List.getLastD_cons, ih]
      · rw [List.foldl_cons, List.filter_cons]
        simp only [decide_eq_true_eq]
        rw [if_neg h, if_neg h, ih]

theorem diffCode_bits (qr qsb qrsp qsbsp : ℚ) :
    diffCode qr qsb qrsp qsbsp
      = 20000 + 1000 * (if qr = qsb then 1 else 0) + 100 * (if qrsp = qsbsp then 1 else 0)
        + 10 * (if qr = qrsp then 1 else 0) + (if qsb = qsbsp then 1 else 0)
    ∧ diffCode qr qsb qrsp qsbsp ≠ 91111 := by
  unfold diffCode
  constructor
  · split_ifs <;> norm_num
  · split_ifs <;> norm_num

/-!
Claim theorems.
-/

/-- C1 (chunking transparency): for every chunk threshold `M >= 1` and
every list of aligned per-pixel contexts, splitting at any contiguous
positional boundaries, evaluating every chunk with the same kernel and
concatenating in chunk order yields exactly the single-pass result;
this holds for the four-variant CRUS kernel (script 15) and for the
erosion kernel (script 17), in particular along the scripts' own
`np.array_split` chunking (`chunkedEval15`, `chunkedEval17`). -/
theorem chunking_transparency (tabCorCod tabCoefBat tab : List (ℚ × ℚ)) (ndv : ℚ)
    (M : ℕ) (hM : 1 ≤ M)
    (xs15 : List Cell15) (chunks15 : List (List Cell15)) (h15 : chunks15.flatten = xs15)
    (xs17 : List Cell17) (chunks17 : List (List Cell17)) (h17 : chunks17.flatten = xs17) :
    (chunks15.map (evalChunk15 tabCorCod tabCoefBat)).flatten
        = evalChunk15 tabCorCod tabCoefBat xs15
    ∧ chunkedEval15 tabCorCod tabCoefBat M xs15 = evalChunk15 tabCorCod tabCoefBat xs15
    ∧ (chunks17.map (evalChunk17 tab ndv)).flatten = evalChunk17 tab ndv xs17
    ∧ chunkedEval17 tab ndv M xs17 = evalChunk17 tab ndv xs17 := by
  refine ⟨?_, ?_, ?_, ?_⟩
  · subst h15
    exact (List.map_flatten (kernel15 tabCorCod tabCoefBat) chunks15).symm
  · have h := (List.map_flatten (kernel15 tabCorCod tabCoefBat) (chunkSplit M xs15)).symm
    calc chunkedEval15 tabCorCod tabCoefBat M xs15
        = evalChunk15 tabCorCod tabCoefBat (chunkSplit M xs15).flatten := h
      _ = evalChunk15 tabCorCod tabCoefBat xs15 := by rw [chunkSplit_flatten M xs15 hM]
  · subst h17
    exact (List.map_flatten (kernel17 tab ndv) chunks17).symm
  · have h := (List.map_flatten (kernel17 tab ndv) (chunkSplit M xs17)).symm
    calc chunkedEval17 tab ndv M xs17
        = evalChunk17 tab ndv (chunkSplit M xs17).flatten := h
      _ = evalChunk17 tab ndv xs17 := by rw [chunkSplit_flatten M xs17 hM]

/-- Witness for C1 at threshold `1`, two-element inputs, and the split
into two singleton chunks. -/
theorem chunking_transparency_witness :
    (1 : ℕ) ≤ 1
    ∧ ([[wCell15], [wCell15]] : List (List Cell15)).flatten = [wCell15, wCell15]
    ∧ ([[wCell17], [wCell17]] : List (List Cell17)).flatten = [wCell17, wCell17]
    ∧ (([[wCell15], [wCell15]] : List (List Cell15)).map (evalChunk15 [] [])).flatten
          = evalChunk15 [] [] [wCell15, wCell15]
    ∧ chunkedEval15 [] [] 1 [wCell15, wCell15] = evalChunk15 [] [] [wCell15, wCell15]
    ∧ (([[wCell17], [wCell17]] : List (List Cell17)).map (evalChunk17 [] 0)).flatten
          = evalChunk17 [] 0 [wCell17, wCell17]
    ∧ chunkedEval17 [] 0 1 [wCell17, wCell17] = evalChunk17 [] 0 [wCell17, wCell17] :=
  ⟨le_refl 1, rfl, rfl,
    chunking_transparency [] [] [] 0 1 (le_refl 1)
      [wCell15, wCell15] [[wCell15], [wCell15]] rfl
      [wCell17, wCell17] [[wCell17], [wCell17]] rfl⟩

/-- C2 counterexample: with threshold `M = 10` and `T = 25` pixels the
scripts split into `25 // 10 = 2` chunks, not `ceil(25/10) = 3`, and the
first chunk holds `13 > M` elements, so the claimed `ceil(T/M)` chunk
count and the per-chunk bound `M` both fail. -/
theorem chunk_partition_counterexample :
    (chunkSplit 10 (List.range 25)).length = 2
    ∧ (25 + 10 - 1) / 10 = 3
    ∧ (chunkSplit 10 (List.range 25)).length ≠ (25 + 10 - 1) / 10
    ∧ ∃ c ∈ chunkSplit 10 (List.range 25), 10 < c.length := by
  decide

/-- C2 as amended: when `T <= M` the whole array is evaluated in one
pass; when `T > M` the scripts split into exactly `T / M` (floor, not
ceiling) contiguous chunks whose concatenation is the original array,
each chunk holding at most `ceil(T / (T/M))` elements (near-equal
`np.array_split` pieces, which can exceed `M`). -/
theorem chunk_partition_floor {α : Type} (M : ℕ) (xs : List α) (hM : 1 ≤ M) :
    (xs.length ≤ M → chunkSplit M xs = [xs])
    ∧ (M < xs.length →
        (chunkSplit M xs).length = xs.length / M
        ∧ (chunkSplit M xs).flatten = xs
        ∧ ∀ c ∈ chunkSplit M xs,
            c.length ≤ (xs.length + (xs.length / M - 1)) / (xs.length / M)) := by
  constructor
  · intro h
    simp [chunkSplit, h]
  · intro h
    have h1 : 1 ≤ xs.length / M := (Nat.one_le_div_iff hM).mpr (by omega)
    obtain ⟨n, hn⟩ : ∃ n, xs.length / M = n + 1 := ⟨xs.length / M - 1, by omega⟩
    have hsplit : chunkSplit M xs = arraySplit (xs.length / M) xs := by
      simp [chunkSplit, Nat.not_le.mpr h]
    refine ⟨?_, ?_, ?_⟩
    · rw [hsplit, hn, arraySplit_length]
    · rw [hsplit, hn]
      exact arraySplit_flatten n xs
    · intro c hc
      rw [hsplit, hn] at hc
      have hb := arraySplit_chunk_length_le n xs c hc
      rw [hn]
      simpa using hb

/-- Witness for C2 as amended at `M = 10`, `T = 25`. -/
theorem chunk_partition_floor_witness :
    (1 : ℕ) ≤ 10
    ∧ (10 < (List.range 25).length →
        (chunkSplit 10 (List.range 25)).length = (List.range 25).length / 10
        ∧ (chunkSplit 10 (List.range 25)).flatten = List.range 25
        ∧ ∀ c ∈ chunkSplit 10 (List.range 25),
            c.length ≤ ((List.range 25).length + ((List.range 25).length / 10 - 1))
              / ((List.range 25).length / 10)) :=
  ⟨by decide, (chunk_partition_floor 10 (List.range 25) (by decide)).2⟩

/-- C3 (no-data dominance - a code bug in script 08): the claimed
propagation is implemented by the script-17 erosion kernel, where a
pixel whose slope equals the declared no-data value gets all three
declared outputs (tonnes/ha, kg per pixel, eroded thickness) forced to
the sentinel `-1` whatever every other input holds; but the script-08
erosion kernel, also cited by the claim, has no no-data branch at all:
at a pixel whose slope holds a declared sentinel such as `-9999` it
computes its outputs normally (here `0`, for every coefficient table
and every behaviour of the external `sin`/`pow` intrinsics), never
forcing them to `-1`. -/
theorem nodata_dominance (tab : List (ℚ × ℚ)) (ndv : ℚ) (c : Cell17) (h : c.pente = ndv) :
    ((kernel17 tab ndv c).result_A = -1
      ∧ (kernel17 tab ndv c).result_kg = -1
      ∧ (kernel17 tab ndv c).result_ep = -1)
    ∧ (∀ (tab08 : List (ℚ × ℚ)) (sinq : ℚ → ℚ) (powq : ℚ → ℚ → ℚ),
        sentinelSlopeCell08.pente = -9999
        ∧ (kernel08 tab08 sinq powq sentinelSlopeCell08).result_A = 0
        ∧ (kernel08 tab08 sinq powq sentinelSlopeCell08).result_kg = 0
        ∧ (kernel08 tab08 sinq powq sentinelSlopeCell08).result_ep = 0
        ∧ (0 : ℚ) ≠ -1) := by
  constructor
  · simp only [kernel17]
    rw [if_pos h]
    exact ⟨rfl, rfl, rfl⟩
  · intro tab08 sinq powq
    refine ⟨rfl, ?_, ?_, ?_, by norm_num⟩
    · simp [kernel08, sentinelSlopeCell08]
    · simp [kernel08, sentinelSlopeCell08]
    · simp [kernel08, sentinelSlopeCell08]

/-- Witness for C3 at a concrete cell whose slope is the declared
no-data value `-9999`. -/
theorem nodata_dominance_witness :
    noDataCell.pente = -9999
    ∧ (kernel17 dupTable (-9999) noDataCell).result_A = -1
    ∧ (kernel17 dupTable (-9999) noDataCell).result_kg = -1
    ∧ (kernel17 dupTable (-9999) noDataCell).result_ep = -1 :=
  ⟨rfl, (nodata_dominance dupTable (-9999) noDataCell rfl).1⟩

/-- C4 counterexample: looking up land-cover code `7` in a table whose
two entries both carry key `7` (values `2` then `9`), the script-17
kernel uses coefficient `9` - the last matching entry - not the first
entry's value `2` as claimed. -/
theorem lookup_first_match_counterexample :
    (kernel17 dupTable 0 dupKeyCell).C = 9 ∧ (9 : ℚ) ≠ 2 := by
  constructor
  · decide
  · norm_num

/-- C4 as amended: the lookup loops assign on every match without
breaking, so the coefficient-C scan (`scanAssign`) and the battance
scan (`battLoop`) use the value of the LAST entry whose key equals the
looked-up value (keeping the prior value when no entry matches), while
the slope-reclass scan (`scanRewrite`) overwrites the compared cell in
place, so each later entry is compared against the already-rewritten
value. -/
theorem lookup_last_match (key bp bsp p : ℚ) (tab : List (ℚ × ℚ)) (init : ℚ)
    (pr : ℚ × ℚ) (kv : ℚ × ℚ) :
    scanAssign key tab init
        = ((tab.filter fun e => decide (key = e.1)).map Prod.snd).getLastD init
    ∧ battLoop tab key bp bsp pr
        = ((tab.filter fun e => decide (key = e.1)).map
            (fun e => (e.2 * bp / 100, e.2 * bsp / 100))).getLastD pr
    ∧ scanRewrite (kv :: tab) p = scanRewrite tab (if p = kv.1 then kv.2 else p) :=
  ⟨assignScan_getLastD key Prod.snd tab init,
    assignScan_getLastD key (fun e => (e.2 * bp / 100, e.2 * bsp / 100)) tab pr,
    rfl⟩

/-- C5 (K-band selection): the erosion kernels pick the soil-erodibility
coefficient by five mutually exclusive clay/sand bands - `clay<18` and
`sand>65` gives `0.0115`; `18<clay<35` and `sand>65` gives `0.0311`;
`clay<35` and `sand<15` gives `0.0438`; `35<clay<60` gives `0.0339`;
`clay>60` gives `0.0170` - and a pair matching no band (such as clay
exactly `18` with `sand>65`, or sand exactly `65` next to the first
band) keeps the previous value of the `K` cell instead of erroring. -/
theorem k_band_selection (a s k0 : ℚ) :
    (a < 18 → 65 < s → selectK a s k0 = 0.0115)
    ∧ (18 < a → a < 35 → 65 < s → selectK a s k0 = 0.0311)
    ∧ (a < 35 → s < 15 → selectK a s k0 = 0.0438)
    ∧ (35 < a → a < 60 → selectK a s k0 = 0.0339)
    ∧ (60 < a → selectK a s k0 = 0.0170)
    ∧ (¬(a < 18 ∧ 65 < s) → ¬(18 < a ∧ a < 35 ∧ 65 < s) → ¬(a < 35 ∧ s < 15)
        → ¬(35 < a ∧ a < 60) → ¬(60 < a) → selectK a s k0 = k0) := by
  unfold selectK
  refine ⟨fun h1 h2 => ?_, fun h1 h2 h3 => ?_, fun h1 h2 => ?_, fun h1 h2 => ?_,
    fun h1 => ?_, fun n1 n2 n3 n4 n5 => ?_⟩
  · rw [if_pos ⟨h1, h2⟩]
  · rw [if_neg (by rintro ⟨ha, -⟩; linarith), if_pos ⟨h1, h2, h3⟩]
  · rw [if_neg (by rintro ⟨-, hs⟩; linarith), if_neg (by rintro ⟨-, -, hs⟩; linarith),
      if_pos ⟨h1, h2⟩]
  · rw [if_neg (by rintro ⟨ha, -⟩; linarith), if_neg (by rintro ⟨-, ha, -⟩; linarith),
      if_neg (by rintro ⟨ha, -⟩; linarith), if_pos ⟨h1, h2⟩]
  · rw [if_neg (by rintro ⟨ha, -⟩; linarith), if_neg (by rintro ⟨-, ha, -⟩; linarith),
      if_neg (by rintro ⟨ha, -⟩; linarith), if_neg (by rintro ⟨-, ha⟩; linarith), if_pos h1]
  · rw [if_neg n1, if_neg n2, if_neg n3, if_neg n4, if_neg n5]

/-- Witness for C5 at band one, at the boundary pair clay `18` with
sand `70`, and at the boundary pair sand `65` with clay `10` (the two
fall-through cases keep the incoming default). -/
theorem k_band_selection_witness :
    ((10 : ℚ) < 18 ∧ (65 : ℚ) < 70)
    ∧ selectK 10 70 0 = 0.0115
    ∧ selectK 18 70 99 = 99
    ∧ selectK 10 65 7 = 7 := by
  refine ⟨⟨by norm_num, by norm_num⟩, ?_, ?_, ?_⟩
  · exact (k_band_selection 10 70 0).1 (by norm_num) (by norm_num)
  · exact (k_band_selection 18 70 99).2.2.2.2.2 (by decide) (by decide) (by decide)
      (by decide) (by decide)
  · exact (k_band_selection 10 65 7).2.2.2.2.2 (by decide) (by decide) (by decide)
      (by decide) (by decide)

/-- C6 (quantization thresholds): the CRUS blended score is classified
with lower-inclusive thresholds - negative scores map to the sentinel
`-1`, scores up to and including `32` to class `0`, above `32` up to
`42` to class `1`, above `42` up to `55` to class `2`, and above `55`
to class `3`; in particular `32`, `42` and `55` fall in the lower
class and anything strictly above a boundary falls in the next. -/
theorem quantization_thresholds (s : ℚ) :
    (s < 0 → quantize s = -1)
    ∧ (0 ≤ s → s ≤ 32 → quantize s = 0)
    ∧ (32 < s → s ≤ 42 → quantize s = 1)
    ∧ (42 < s → s ≤ 55 → quantize s = 2)
    ∧ (55 < s → quantize s = 3) := by
  unfold quantize
  refine ⟨fun h => ?_, fun h1 h2 => ?_, fun h1 h2 => ?_, fun h1 h2 => ?_, fun h => ?_⟩
  · rw [if_pos h]
  · rw [if_neg (not_lt.mpr h1), if_pos h2]
  · rw [if_neg (by linarith), if_neg (by linarith), if_pos h2]
  · rw [if_neg (by linarith), if_neg (by linarith), if_neg (by linarith), if_pos h2]
  · rw [if_neg (by linarith), if_neg (by linarith), if_neg (by linarith),
      if_neg (by linarith)]

/-- Witness for C6 at the three boundaries and just above each of
them. -/
theorem quantization_thresholds_witness :
    ((0 : ℚ) ≤ 32 ∧ (32 : ℚ) ≤ 32 ∧ quantize 32 = 0)
    ∧ ((32 : ℚ) < 32.0001 ∧ quantize 32.0001 = 1)
    ∧ quantize 42 = 1
    ∧ quantize 42.0001 = 2
    ∧ quantize 55 = 2
    ∧ quantize 55.0001 = 3 := by
  refine ⟨⟨by norm_num, by norm_num,
      (quantization_thresholds 32).2.1 (by norm_num) (by norm_num)⟩,
    ⟨by norm_num, (quantization_thresholds 32.0001).2.2.1 (by norm_num) (by norm_num)⟩,
    (quantization_thresholds 42).2.2.1 (by norm_num) (by norm_num),
    (quantization_thresholds 42.0001).2.2.2.1 (by norm_num) (by norm_num),
    (quantization_thresholds 55).2.2.2.1 (by norm_num) (by norm_num),
    (quantization_thresholds 55.0001).2.2.2.2 (by norm_num)⟩

/-- C7 (diff-code composition): for every pixel the four-variant CRUS
kernel packs its difference output as `20000 + 1000*a + 100*b + 10*c +
d`, where `a`, `b`, `c`, `d` are the indicator values of the four
pairwise equalities between the quantized variant outputs
(with-battance/with-slope vs without-battance/with-slope;
with-battance/without-slope vs without-battance/without-slope;
with-battance/with-slope vs with-battance/without-slope;
without-battance/with-slope vs without-battance/without-slope), and so
the packed code never equals the out-of-band no-data sentinel
`91111`. -/
theorem diff_code_composition (tabCorCod tabCoefBat : List (ℚ × ℚ)) (c : Cell15) :
    (kernel15 tabCorCod tabCoefBat c).diff
      = 20000
        + 1000 * (if (kernel15 tabCorCod tabCoefBat c).result
            = (kernel15 tabCorCod tabCoefBat c).ssbatt then 1 else 0)
        + 100 * (if (kernel15 tabCorCod tabCoefBat c).result_sp
            = (kernel15 tabCorCod tabCoefBat c).ssbatt_sp then 1 else 0)
        + 10 * (if (kernel15 tabCorCod tabCoefBat c).result
            = (kernel15 tabCorCod tabCoefBat c).result_sp then 1 else 0)
        + (if (kernel15 tabCorCod tabCoefBat c).ssbatt
            = (kernel15 tabCorCod tabCoefBat c).ssbatt_sp then 1 else 0)
    ∧ (kernel15 tabCorCod tabCoefBat c).diff ≠ 91111 := by
  have h : (kernel15 tabCorCod tabCoefBat c).diff
      = diffCode (kernel15 tabCorCod tabCoefBat c).result
          (kernel15 tabCorCod tabCoefBat c).ssbatt
          (kernel15 tabCorCod tabCoefBat c).result_sp
          (kernel15 tabCorCod tabCoefBat c).ssbatt_sp := rfl
  rw [h]
  exact diffCode_bits _ _ _ _

/-- C8: the script-08 erosion kernel satisfies all three claimed
equations - `A = R*K*C*(L*S)` in tonnes/ha, `kg_per_pixel = A * 0.0025
* 1000`, and `thickness = (kg_per_pixel / 1250) / 25` - for every input
and every behaviour of the external `sin`/`pow` intrinsics; the
script-17 kernel, however, writes the raw slope value into its
thickness output (`result_epaisseur[pos] = pente[pos]`), so at a valid
pixel with slope `2` its thickness output is `2` and differs from the
conversion `(kg_per_pixel / 1250) / 25` promised by the claim and by
the script's own header comment. -/
theorem erosion_unit_conversions :
    (∀ (tab : List (ℚ × ℚ)) (sinq : ℚ → ℚ) (powq : ℚ → ℚ → ℚ) (c : Cell08),
      (kernel08 tab sinq powq c).result_A
          = c.R * (kernel08 tab sinq powq c).K * (kernel08 tab sinq powq c).C
            * ((kernel08 tab sinq powq c).L * (kernel08 tab sinq powq c).S)
      ∧ (kernel08 tab sinq powq c).result_kg
          = (kernel08 tab sinq powq c).result_A * 0.0025 * 1000
      ∧ (kernel08 tab sinq powq c).result_ep
          = ((kernel08 tab sinq powq c).result_kg / 1250) / 25)
    ∧ (kernel17 oneTable 0 validCell).result_ep = 2
    ∧ (kernel17 oneTable 0 validCell).result_ep
        ≠ ((kernel17 oneTable 0 validCell).result_kg / 1250) / 25 := by
  refine ⟨fun tab sinq powq c => ⟨mul_assoc _ _ _, rfl, rfl⟩, ?_, ?_⟩
  · norm_num [kernel17, validCell, oneTable, scanAssign, selectK]
  · norm_num [kernel17, validCell, oneTable, scanAssign, selectK]

/-- C9 counterexample: the four-variant CRUS kernel overwrites the
slope input cell in place during reclassification - a slope cell read
as `1` holds `5` after the kernel has run, so the slope input array is
not read-only. -/
theorem input_immutability_counterexample :
    slopeCell.pentes = 1
    ∧ (kernel15 reclassTable [] slopeCell).pentes = 5
    ∧ (5 : ℚ) ≠ 1 := by
  refine ⟨rfl, by decide, by norm_num⟩

/-- C9 as amended: every input array other than the slope array is
read-only across all four kernels - the CRUS kernels leave the
permeability, land-cover and battance cells untouched, and the
script-17 erosion kernel leaves the rainfall, clay, silt, sand and
land-cover cells untouched - while the slope array is written in place
(reclassified by the CRUS kernels, forced to `-1` at no-data pixels by
the script-17 kernel). -/
theorem input_immutability_except_slope :
    (∀ (tabCorCod tabCoefBat : List (ℚ × ℚ)) (c : Cell11),
      (kernel11 tabCorCod tabCoefBat c).permea = c.permea
      ∧ (kernel11 tabCorCod tabCoefBat c).occSol = c.occSol
      ∧ (kernel11 tabCorCod tabCoefBat c).battance = c.battance)
    ∧ (∀ (tabCorCod tabCoefBat : List (ℚ × ℚ)) (c : Cell15),
      (kernel15 tabCorCod tabCoefBat c).permea = c.permea
      ∧ (kernel15 tabCorCod tabCoefBat c).occSol = c.occSol
      ∧ (kernel15 tabCorCod tabCoefBat c).battance = c.battance)
    ∧ (∀ (tab : List (ℚ × ℚ)) (ndv : ℚ) (c : Cell17),
      (kernel17 tab ndv c).R = c.R
      ∧ (kernel17 tab ndv c).argile = c.argile
      ∧ (kernel17 tab ndv c).limon = c.limon
      ∧ (kernel17 tab ndv c).sable = c.sable
      ∧ (kernel17 tab ndv c).occSol = c.occSol) := by
  refine ⟨fun t1 t2 c => ⟨rfl, rfl, rfl⟩, fun t1 t2 c => ⟨rfl, rfl, rfl⟩,
    fun tab ndv c => ?_⟩
  by_cases h : c.pente = ndv <;> simp [kernel17, h]

/-- C10 counterexample: for two disjoint unit-square extents the
computed intersection box is degenerate (`xmax <= xmin`), yet the
script still issues one resampling call per raster (two calls) instead
of failing before resampling with no outputs. -/
theorem degenerate_box_counterexample :
    (interBox extentA [extentB]).xmax ≤ (interBox extentA [extentB]).xmin
    ∧ warpPlan15 extentA [extentB] ≠ []
    ∧ (warpPlan15 extentA [extentB]).length = 2 := by
  refine ⟨by decide, by decide, by decide⟩

/-- C10 as amended: neither script checks the intersection box for
degeneracy and neither has a GeometryError.  At a degenerate box,
script 15 still issues one resampling call per input raster and every
call receives the degenerate bounds; script 17 either skips resampling
entirely (when `condition_non_decoupage` holds, i.e. all rasters
already share the box) or crashes with a `TypeError` while building the
thread arguments (line 243's missing comma), before any warp thread is
started - so on no path does a degenerate box trigger a check or an
error of the script's own before resampling. -/
theorem degenerate_box_warps_proceed (e : Extent) (es : List Extent)
    (h : (interBox e es).xmax ≤ (interBox e es).xmin) :
    ((warpPlan15 e es).length = es.length + 1
      ∧ ∀ w ∈ warpPlan15 e es, w.xmax ≤ w.xmin)
    ∧ (condNonDecoupage e es = false → warpPlan17 e es = none)
    ∧ (condNonDecoupage e es = true → warpPlan17 e es = some []) := by
  refine ⟨⟨?_, ?_⟩, ?_, ?_⟩
  · simp [warpPlan15]
  · intro w hw
    obtain ⟨x, hx, rfl⟩ := List.mem_map.mp hw
    exact h
  · intro hc
    simp [warpPlan17, hc]
  · intro hc
    simp [warpPlan17, hc]

/-- Witness for C10 as amended at the two disjoint unit squares. -/
theorem degenerate_box_warps_proceed_witness :
    (interBox extentA [extentB]).xmax ≤ (interBox extentA [extentB]).xmin
    ∧ (((warpPlan15 extentA [extentB]).length = [extentB].length + 1
        ∧ ∀ w ∈ warpPlan15 extentA [extentB], w.xmax ≤ w.xmin)
      ∧ (condNonDecoupage extentA [extentB] = false → warpPlan17 extentA [extentB] = none)
      ∧ (condNonDecoupage extentA [extentB] = true → warpPlan17 extentA [extentB] = some [])) :=
  ⟨by decide, degenerate_box_warps_proceed extentA [extentB] (by decide)⟩
